import Mathlib

/-!
# Verification of the SignSpeak active-user presence server (src/app.py)

Shallow embedding of the presence registry and its operations.  The
registry is the Python dict `active_users` (user_id → record), modelled as
an association list with unique keys (a Python dict cannot hold two
entries for one key).  Timestamps are integers (seconds); `datetime.now()`
values become explicit `now : Int` parameters.  Interactions with the
MySQL persistence gateway are modelled by explicit environment parameters
(connection availability, admin-lookup outcome, bucket-table contents) and
by effect traces in the result structures (which queries were issued),
so that "never touches the gateway" and "re-queries admin status" become
provable statements.
-/

namespace ActiveUserServer

/-- One record of the `active_users` dict, as built at src/app.py
lines 221-227 (socket login) and 305-311 (HTTP presence). -/
structure UserRecord where
  socket_id : Option String
  last_seen : Int
  user_info : List (String × String)
  user_id : String
  is_admin : Bool
deriving Repr, DecidableEq

/-- The in-memory registry `active_users`: association list user_id → record. -/
abbrev Registry := List (String × UserRecord)

/-- Python truthiness of `data.get('user_id')`: `None` and the empty
string are falsy (the handlers guard with `if user_id:`). -/
def truthy : Option String → Bool
  | none => false
  | some s => !(s = "")

/-- `user_id in active_users` membership test. -/
def containsKey (reg : Registry) (k : String) : Bool :=
  reg.any (fun p => p.1 = k)

/-- `active_users[user_id]` read (None if absent). -/
def lookup (reg : Registry) (k : String) : Option UserRecord :=
  (reg.find? (fun p => p.1 = k)).map Prod.snd

/-- `active_users[user_id] = value`: replace in place if the key exists,
else append (Python dicts keep insertion order). -/
def setEntry (reg : Registry) (k : String) (v : UserRecord) : Registry :=
  if containsKey reg k then
    reg.map (fun p => if p.1 = k then (k, v) else p)
  else
    reg ++ [(k, v)]

/-- In-place field mutation `active_users[user_id][...] = ...`. -/
def updateEntry (reg : Registry) (k : String) (f : UserRecord → UserRecord) : Registry :=
  reg.map (fun p => if p.1 = k then (p.1, f p.2) else p)

/-- The dict invariant: each user_id occurs at most once. -/
def keysUnique (reg : Registry) : Prop :=
  (reg.map Prod.fst).Nodup

/-- Outcome of one admin-lookup interaction with the persistence gateway
(`check_if_admin`, src/app.py lines 42-57): the connection attempt fails
(`get_db_connection` returns None), the query raises, or the query
returns the `COUNT(*)` of matching `admin_users` rows. -/
inductive AdminLookupEnv
  | unreachable
  | queryError
  | ok (adminRows : Nat)
deriving Repr, DecidableEq

/-- `check_if_admin` (src/app.py lines 42-57): `False` when the
connection fails or the query errors, else `COUNT(*) > 0`. -/
def check_if_admin : AdminLookupEnv → Bool
  | .unreachable => false
  | .queryError => false
  | .ok n => 0 < n

/-- JSON view of one record (`serialize_user`, src/app.py lines 59-67).
`last_seen` stays an integer timestamp; its ISO-8601 rendering is an
injective formatting step irrelevant to the claims. -/
structure SerializedUser where
  socket_id : Option String
  last_seen : Int
  user_info : List (String × String)
  user_id : String
  is_admin : Bool
deriving Repr, DecidableEq

/-- `serialize_user` (src/app.py lines 59-67). All records are created
with every key present, so the `.get` defaults never fire. -/
def serialize_user (u : UserRecord) : SerializedUser :=
  ⟨u.socket_id, u.last_seen, u.user_info, u.user_id, u.is_admin⟩

/-- Payload of an `active_users_update` emission. -/
structure Payload where
  count : Nat
  users : List SerializedUser
deriving Repr, DecidableEq

/-- `sum(1 for user in active_users.values() if not user.get('is_admin', False))`,
the non-admin count expression repeated at src/app.py lines 84, 204, 230,
322, 357, 400. -/
def non_admin_count (reg : Registry) : Nat :=
  (reg.map Prod.snd).countP (fun u => !u.is_admin)

/-- `[user for user in active_users.values() if not user.get('is_admin', False)]`. -/
def non_admin_users (reg : Registry) : List UserRecord :=
  (reg.map Prod.snd).filter (fun u => !u.is_admin)

/-- The `active_users_update` payload built from a registry state
(the identical dict literal at src/app.py lines 85-88, 205-208, 233-236,
401-404). -/
def active_users_update_payload (reg : Registry) : Payload :=
  ⟨non_admin_count reg, (non_admin_users reg).map serialize_user⟩

/-- Result of the `user_login` socket handler: the new registry, the
emitted broadcasts, and the trace of user_ids for which `check_if_admin`
was invoked.  The handler returns no value to the caller (no socket
acknowledgement), so there is no response field. -/
structure LoginResult where
  registry : Registry
  broadcasts : List Payload
  admin_queries : List String
deriving Repr, DecidableEq

/-- `handle_user_login` (src/app.py lines 210-236): if `user_id` is
truthy, query admin status, overwrite `active_users[user_id]` with a
fresh record, and broadcast the updated non-admin snapshot; otherwise do
nothing at all. -/
def handle_user_login (reg : Registry) (data_user_id : Option String)
    (user_info : List (String × String)) (sid : String)
    (env : AdminLookupEnv) (now : Int) : LoginResult :=
  match data_user_id with
  | none => ⟨reg, [], []⟩
  | some uid =>
    if uid = "" then ⟨reg, [], []⟩
    else
      let is_admin := check_if_admin env
      let reg' := setEntry reg uid ⟨some sid, now, user_info, uid, is_admin⟩
      ⟨reg', [active_users_update_payload reg'], [uid]⟩

/-- `handle_user_activity` (src/app.py lines 238-245): refresh
`last_seen` when the user is present; no broadcast, no admin query. -/
def handle_user_activity (reg : Registry) (data_user_id : Option String)
    (now : Int) : Registry :=
  match data_user_id with
  | none => reg
  | some uid =>
    if !(uid = "") && containsKey reg uid then
      updateEntry reg uid (fun r => { r with last_seen := now })
    else
      reg

/-- Result of the disconnect handler. -/
structure DisconnectResult where
  registry : Registry
  broadcasts : List Payload
deriving Repr, DecidableEq

/-- `handle_disconnect` (src/app.py lines 189-208): linear scan for the
first record whose `socket_id` equals the disconnecting sid; if found,
delete it and broadcast the updated non-admin snapshot. -/
def handle_disconnect (reg : Registry) (sid : String) : DisconnectResult :=
  match reg.find? (fun p => p.2.socket_id = some sid) with
  | none => ⟨reg, []⟩
  | some hit =>
    let reg' := reg.filter (fun q => !(q.1 = hit.1))
    ⟨reg', [active_users_update_payload reg']⟩

/-- Result of one eviction sweep. -/
structure CleanupResult where
  registry : Registry
  broadcasts : List Payload
  removed_any : Bool
deriving Repr, DecidableEq

/-- `for user_id in inactive_users: del active_users[user_id]`. -/
def delKeys (reg : Registry) (ids : List String) : Registry :=
  ids.foldl (fun acc uid => acc.filter (fun p => !(p.1 = uid))) reg

/-- `cleanup_inactive_users` (src/app.py lines 69-90): collect the ids
with `now - last_seen > threshold` (strict), delete them, and broadcast
iff at least one was removed; returns whether any were removed. -/
def cleanup_inactive_users (reg : Registry) (now threshold : Int) : CleanupResult :=
  let inactive := (reg.filter (fun p => threshold < now - p.2.last_seen)).map Prod.fst
  let reg' := delKeys reg inactive
  if 0 < inactive.length then
    ⟨reg', [active_users_update_payload reg'], true⟩
  else
    ⟨reg', [], false⟩

/-- One tick of `cleanup_loop` (src/app.py lines 395-404): run the sweep
(which broadcasts iff it evicted anything), then unconditionally emit a
second `active_users_update` from the post-sweep registry. -/
def cleanup_loop_tick (reg : Registry) (now threshold : Int) :
    Registry × List Payload :=
  let c := cleanup_inactive_users reg now threshold
  (c.registry, c.broadcasts ++ [active_users_update_payload c.registry])

/-- Response of POST /api/user-presence. -/
inductive PresenceResponse
  | ok (user_id : String)
  | invalid_user_id
deriving Repr, DecidableEq

/-- Result of POST /api/user-presence: new registry, JSON response, and
effect traces.  `broadcasts` records every `active_users_update`
emission performed by the handler (the source contains no emit call, so
the definition produces none); `session_writes` the user_ids upserted
into `user_sessions`; `admin_queries` the `check_if_admin` invocations. -/
structure PresenceResult where
  registry : Registry
  response : PresenceResponse
  broadcasts : List Payload
  session_writes : List String
  admin_queries : List String
deriving Repr, DecidableEq

/-- `update_user_presence` (src/app.py lines 258-315): with a truthy
`user_id`, upsert the `user_sessions` row when the connection succeeds
(`sessionDb`), always re-run `check_if_admin`, then refresh `last_seen`
if present or create a record with `socket_id = None` otherwise, and
answer success; with a falsy `user_id`, answer
`{success: False, error: 'Invalid user_id'}` touching nothing.  `page`
and `action` only flow into the opaque `session_data` JSON and are not
modelled beyond that. -/
def update_user_presence (reg : Registry) (data_user_id : Option String)
    (user_info : List (String × String)) (sessionDb : Bool)
    (env : AdminLookupEnv) (now : Int) : PresenceResult :=
  match data_user_id with
  | none => ⟨reg, .invalid_user_id, [], [], []⟩
  | some uid =>
    if uid = "" then ⟨reg, .invalid_user_id, [], [], []⟩
    else
      let writes := if sessionDb then [uid] else []
      let is_admin := check_if_admin env
      let reg' :=
        if containsKey reg uid then
          updateEntry reg uid (fun r => { r with last_seen := now })
        else
          reg ++ [(uid, ⟨none, now, user_info, uid, is_admin⟩)]
      ⟨reg', .ok uid, [], writes, [uid]⟩

/-- Response of GET /api/active-users (src/app.py lines 248-256). -/
structure ActiveUsersResponse where
  count : Nat
  users : List SerializedUser
deriving Repr, DecidableEq

/-- `get_active_users` (src/app.py lines 248-256): filter out admins,
report the filtered length and the serialized filtered records. -/
def get_active_users (reg : Registry) : ActiveUsersResponse :=
  let nau := non_admin_users reg
  ⟨nau.length, nau.map serialize_user⟩

/-- Response body of GET /health. -/
structure HealthResponse where
  status : String
  active_users : Nat
deriving Repr, DecidableEq

/-- GET /health outcome: response plus the number of
`get_db_connection` attempts the handler performed. -/
structure HealthResult where
  response : HealthResponse
  db_connects : Nat
deriving Repr, DecidableEq

/-- `health_check` (src/app.py lines 354-362): count non-admins from the
in-memory registry and answer `healthy`.  The handler contains no
database call, so the result ignores the gateway's availability and its
connection trace is empty. -/
def health_check (reg : Registry) (dbAvailable : Bool) : HealthResult :=
  ⟨⟨"healthy", non_admin_count reg⟩, 0⟩

/-- The persisted `user_presence_minutely` table: rows (bucket_minute,
user_id) with a uniqueness constraint on the pair. -/
abbrev BucketTable := List (Int × String)

/-- `datetime.now().replace(second=0, microsecond=0)`: floor a
second-resolution timestamp to its minute. -/
def bucket_minute (t : Int) : Int := t - t % 60

/-- The snapshot comprehension of `record_minute_presence`
(src/app.py lines 98-101): ids of records with
`now - last_seen <= threshold` (boundary inclusive). -/
def snapshot_active (reg : Registry) (now threshold : Int) : List String :=
  (reg.filter (fun p => now - p.2.last_seen ≤ threshold)).map Prod.fst

/-- `INSERT IGNORE INTO user_presence_minutely`: insert unless the
(bucket, user) pair exists; rowcount 1 on insert, 0 on duplicate. -/
def insert_ignore (tbl : BucketTable) (row : Int × String) : BucketTable × Nat :=
  if tbl.any (fun r => r = row) then (tbl, 0) else (tbl ++ [row], 1)

/-- Outcome of one rollup cycle: the returned inserted-row count, the
resulting table (None while the gateway is unreachable), and how many
`get_db_connection` attempts were made. -/
structure RollupResult where
  inserted : Nat
  table : Option BucketTable
  db_connects : Nat
deriving Repr, DecidableEq

/-- `record_minute_presence` (src/app.py lines 92-130): compute the
bucket from `now0` (the first `datetime.now()` call), snapshot the
still-active ids at `now` (the second call, under the lock), return 0
without touching the gateway when the snapshot is empty, else connect
(0 on failure) and INSERT IGNORE one row per id, summing rowcounts.
The caught-and-logged mid-loop query-error branch is not modelled; no
claim concerns it. -/
def record_minute_presence (reg : Registry) (now0 now threshold : Int)
    (db : Option BucketTable) : RollupResult :=
  let bucket := bucket_minute now0
  let ids := snapshot_active reg now threshold
  if ids.isEmpty then ⟨0, db, 0⟩
  else
    match db with
    | none => ⟨0, none, 1⟩
    | some tbl =>
      let fin := ids.foldl
        (fun (acc : BucketTable × Nat) uid =>
          let step := insert_ignore acc.1 (bucket, uid)
          (step.1, acc.2 + step.2))
        (tbl, 0)
      ⟨fin.2, some fin.1, 1⟩

/-- Outcome of one retention-pruner cycle: the returned deleted-row
count, the resulting table, connection attempts, and issued DELETE
statements. -/
structure RetentionResult where
  deleted : Nat
  table : Option BucketTable
  db_connects : Nat
  delete_queries : Nat
deriving Repr, DecidableEq

/-- `cleanup_old_presence_data` (src/app.py lines 149-173): return 0
immediately when `PRESENCE_RETENTION_DAYS <= 0` (before any connection
attempt); else connect (0 on failure) and delete the rows with
`bucket_minute < NOW() - INTERVAL retentionDays DAY`, reporting the
rowcount. -/
def cleanup_old_presence_data (retentionDays : Int) (db : Option BucketTable)
    (now : Int) : RetentionResult :=
  if retentionDays ≤ 0 then ⟨0, db, 0, 0⟩
  else
    match db with
    | none => ⟨0, none, 1, 0⟩
    | some tbl =>
      let cutoff := now - retentionDays * 86400
      let kept := tbl.filter (fun r => !(r.1 < cutoff))
      ⟨tbl.length - kept.length, some kept, 1, 1⟩

/-- The events that mutate the registry, each carrying its environment
(timestamps, gateway outcomes). -/
inductive Event
  | login (uid : Option String) (info : List (String × String))
      (sid : String) (env : AdminLookupEnv) (now : Int)
  | activity (uid : Option String) (now : Int)
  | disconnect (sid : String)
  | httpPresence (uid : Option String) (info : List (String × String))
      (sessionDb : Bool) (env : AdminLookupEnv) (now : Int)
  | reaperTick (now threshold : Int)

/-- One step of the system: the registry transition together with every
`active_users_update` broadcast the step emits. -/
def step (reg : Registry) : Event → Registry × List Payload
  | .login uid info sid env now =>
    let r := handle_user_login reg uid info sid env now
    (r.registry, r.broadcasts)
  | .activity uid now => (handle_user_activity reg uid now, [])
  | .disconnect sid =>
    let r := handle_disconnect reg sid
    (r.registry, r.broadcasts)
  | .httpPresence uid info sessionDb env now =>
    let r := update_user_presence reg uid info sessionDb env now
    (r.registry, r.broadcasts)
  | .reaperTick now threshold => cleanup_loop_tick reg now threshold

/-- Specification-side view: the registry records with `is_admin = false`,
serialized.  Used to compare each endpoint and broadcast against the
spec's `NonAdminView`. -/
def specNonAdminList (reg : Registry) : List SerializedUser :=
  ((reg.map Prod.snd).filter (fun u => u.is_admin = false)).map serialize_user

/-- Specification-side view: the number of registry records with
`is_admin = false`. -/
def numNonAdmin (reg : Registry) : Nat :=
  ((reg.map Prod.snd).filter (fun u => u.is_admin = false)).length

/-! ## Basic lemmas about the registry operations -/

theorem non_admin_count_eq (reg : Registry) :
    non_admin_count reg = numNonAdmin reg := by
  unfold non_admin_count numNonAdmin
  rw [List.countP_eq_length_filter]
  congr 1
  apply List.filter_congr
  intro u _
  cases h : u.is_admin <;> simp [h]

theorem non_admin_users_serialized (reg : Registry) :
    (non_admin_users reg).map serialize_user = specNonAdminList reg := by
  unfold non_admin_users specNonAdminList
  congr 1
  apply List.filter_congr
  intro u _
  cases h : u.is_admin <;> simp [h]

theorem delKeys_eq_filter (ids : List String) (reg : Registry) :
    delKeys reg ids = reg.filter (fun p => !ids.contains p.1) := by
  induction ids generalizing reg with
  | nil => simp [delKeys]
  | cons a l ih =>
    rw [show delKeys reg (a :: l)
          = delKeys (reg.filter fun p => !(p.1 = a)) l from rfl,
        ih, List.filter_filter]
    apply List.filter_congr
    intro p _
    by_cases h : p.1 = a
    · simp [h]
    · by_cases h2 : l.contains p.1 <;> simp [h, h2]

theorem eq_of_mem_of_keysUnique {reg : Registry} {p q : String × UserRecord}
    (h : keysUnique reg) (hp : p ∈ reg) (hq : q ∈ reg) (hk : p.1 = q.1) :
    p = q := by
  induction reg with
  | nil => cases hp
  | cons a t ih =>
    rw [keysUnique, List.map_cons, List.nodup_cons] at h
    rcases List.mem_cons.mp hp with rfl | hp' <;>
      rcases List.mem_cons.mp hq with rfl | hq'
    · rfl
    · exact absurd (hk ▸ List.mem_map_of_mem Prod.fst hq') h.1
    · exact absurd (hk ▸ List.mem_map_of_mem Prod.fst hp') h.1
    · exact ih h.2 hp' hq'

theorem lookup_map_replace (reg : Registry) (k : String) (v : UserRecord)
    (h : containsKey reg k = true) :
    lookup (reg.map (fun p => if p.1 = k then (k, v) else p)) k = some v := by
  induction reg with
  | nil => simp [containsKey] at h
  | cons a t ih =>
    by_cases ha : a.1 = k
    · simp [lookup, List.find?, ha]
    · have h' : containsKey t k = true := by
        simpa [containsKey, ha] using h
      simpa [lookup, List.find?, ha] using ih h'

theorem lookup_append_single (reg : Registry) (k : String) (v : UserRecord)
    (h : containsKey reg k = false) :
    lookup (reg ++ [(k, v)]) k = some v := by
  induction reg with
  | nil => simp [lookup, List.find?]
  | cons a t ih =>
    have ha : ¬(a.1 = k) := by
      intro hc
      simp [containsKey, hc] at h
    have h' : containsKey t k = false := by
      simpa [containsKey, ha] using h
    simpa [lookup, List.find?, ha] using ih h'

theorem lookup_setEntry_self (reg : Registry) (k : String) (v : UserRecord) :
    lookup (setEntry reg k v) k = some v := by
  unfold setEntry
  by_cases h : containsKey reg k
  · rw [if_pos h]
    exact lookup_map_replace reg k v h
  · rw [if_neg h]
    exact lookup_append_single reg k v (Bool.not_eq_true _ ▸ h)

theorem lookup_updateEntry (reg : Registry) (k : String)
    (f : UserRecord → UserRecord) :
    lookup (updateEntry reg k f) k = (lookup reg k).map f := by
  induction reg with
  | nil => simp [lookup, updateEntry]
  | cons a t ih =>
    by_cases ha : a.1 = k
    · simp [lookup, updateEntry, List.find?, ha]
    · simpa [lookup, updateEntry, List.find?, ha] using ih

theorem length_setEntry_of_contains (reg : Registry) (k : String)
    (v : UserRecord) (h : containsKey reg k = true) :
    (setEntry reg k v).length = reg.length := by
  unfold setEntry
  rw [if_pos h, List.length_map]

theorem length_updateEntry (reg : Registry) (k : String)
    (f : UserRecord → UserRecord) :
    (updateEntry reg k f).length = reg.length := by
  unfold updateEntry
  rw [List.length_map]

theorem snd_mem_of_lookup {reg : Registry} {k : String} {r : UserRecord}
    (h : lookup reg k = some r) : r ∈ reg.map Prod.snd := by
  unfold lookup at h
  cases hf : reg.find? (fun p => p.1 = k) with
  | none => rw [hf] at h; cases h
  | some p =>
    rw [hf] at h
    cases h
    exact List.mem_map_of_mem Prod.snd (List.mem_of_find?_eq_some hf)

theorem containsKey_of_lookup {reg : Registry} {k : String} {r : UserRecord}
    (h : lookup reg k = some r) : containsKey reg k = true := by
  unfold lookup at h
  cases hf : reg.find? (fun p => p.1 = k) with
  | none => rw [hf] at h; cases h
  | some p =>
    have hp := List.find?_some hf
    have hm := List.mem_of_find?_eq_some hf
    unfold containsKey
    rw [List.any_eq_true]
    exact ⟨p, hm, hp⟩

theorem non_admin_users_length (reg : Registry) :
    (non_admin_users reg).length = numNonAdmin reg := by
  unfold non_admin_users numNonAdmin
  congr 1
  apply List.filter_congr
  intro u _
  cases h : u.is_admin <;> simp [h]

theorem length_filter_pos_iff_any {α : Type} (l : List α) (p : α → Bool) :
    0 < (l.filter p).length ↔ l.any p = true := by
  rw [← List.countP_eq_length_filter, List.countP_pos_iff, List.any_eq_true]

theorem login_truthy_eq (reg : Registry) (uid : String)
    (info : List (String × String)) (sid : String) (env : AdminLookupEnv)
    (now : Int) (hne : ¬(uid = "")) :
    handle_user_login reg (some uid) info sid env now
      = ⟨setEntry reg uid ⟨some sid, now, info, uid, check_if_admin env⟩,
         [active_users_update_payload
           (setEntry reg uid ⟨some sid, now, info, uid, check_if_admin env⟩)],
         [uid]⟩ := by
  simp [handle_user_login, hne]

theorem updatePresence_broadcasts_nil (reg : Registry) (uid : Option String)
    (info : List (String × String)) (sessionDb : Bool)
    (env : AdminLookupEnv) (now : Int) :
    (update_user_presence reg uid info sessionDb env now).broadcasts = [] := by
  cases uid with
  | none => rfl
  | some s =>
    by_cases hs : s = "" <;> simp [update_user_presence, hs]

theorem login_broadcasts_eq (reg : Registry) (uid : Option String)
    (info : List (String × String)) (sid : String) (env : AdminLookupEnv)
    (now : Int) :
    (handle_user_login reg uid info sid env now).broadcasts
      = if truthy uid then
          [active_users_update_payload
            (handle_user_login reg uid info sid env now).registry]
        else [] := by
  cases uid with
  | none => rfl
  | some s =>
    by_cases hs : s = "" <;> simp [handle_user_login, truthy, hs]

theorem lookup_cons (a : String × UserRecord) (t : Registry) (k : String) :
    lookup (a :: t) k = if a.1 = k then some a.2 else lookup t k := by
  unfold lookup
  by_cases ha : a.1 = k
  · rw [List.find?_cons_of_pos _ (by simpa using ha), if_pos ha]
    rfl
  · rw [List.find?_cons_of_neg _ (by simpa using ha), if_neg ha]

theorem lookup_updateEntry_general (reg : Registry) (k k2 : String)
    (f : UserRecord → UserRecord) :
    lookup (updateEntry reg k2 f) k
      = (lookup reg k).map (fun r => if k = k2 then f r else r) := by
  induction reg with
  | nil => rfl
  | cons a t ih =>
    rw [show updateEntry (a :: t) k2 f
          = (if a.1 = k2 then (a.1, f a.2) else a) :: updateEntry t k2 f
        from rfl]
    by_cases ha2 : a.1 = k2 <;> by_cases ha : a.1 = k
    · rw [if_pos ha2, lookup_cons, lookup_cons]
      have hk : k = k2 := by rw [← ha, ha2]
      simp [ha, hk]
    · rw [if_pos ha2, lookup_cons, lookup_cons]
      simp only [ha, if_neg (show ¬((a.1 : String) = k) from ha),
        if_neg (show ¬((a.1 : String) = k) from ha)]
      exact ih
    · rw [if_neg ha2, lookup_cons, lookup_cons]
      have hk : ¬(k = k2) := fun h => ha2 (ha.trans h)
      simp [ha, hk]
    · rw [if_neg ha2, lookup_cons, lookup_cons]
      simp only [if_neg (show ¬((a.1 : String) = k) from ha)]
      exact ih

theorem lookup_append_of_some {reg : Registry} {k : String} {r : UserRecord}
    (h : lookup reg k = some r) (l : Registry) :
    lookup (reg ++ l) k = some r := by
  induction reg with
  | nil => simp [lookup, List.find?] at h
  | cons a t ih =>
    rw [List.cons_append]
    rw [lookup_cons] at h ⊢
    by_cases ha : a.1 = k
    · rw [if_pos ha] at h ⊢
      exact h
    · rw [if_neg ha] at h ⊢
      exact ih h

theorem lookup_updateEntry_is_admin (reg : Registry) (k k2 : String) (n : Int) :
    (lookup (updateEntry reg k2 (fun q => { q with last_seen := n })) k).map
        UserRecord.is_admin
      = (lookup reg k).map UserRecord.is_admin := by
  rw [lookup_updateEntry_general]
  cases lookup reg k with
  | none => rfl
  | some r => by_cases hk : k = k2 <;> simp [hk]

theorem serialize_mem_non_admin {reg : Registry} {k : String} {r : UserRecord}
    (hk : lookup reg k = some r) (hflag : r.is_admin = false) :
    serialize_user r ∈ (non_admin_users reg).map serialize_user := by
  apply List.mem_map_of_mem
  apply List.mem_filter.mpr
  exact ⟨snd_mem_of_lookup hk, by simp [hflag]⟩

theorem cleanup_registry_eq (reg : Registry) (now threshold : Int) :
    (cleanup_inactive_users reg now threshold).registry =
      reg.filter (fun p =>
        !(((reg.filter (fun q => threshold < now - q.2.last_seen)).map
            Prod.fst).contains p.1)) := by
  simp only [cleanup_inactive_users]
  split
  · exact delKeys_eq_filter _ _
  · exact delKeys_eq_filter _ _

theorem cleanup_removed_any_eq (reg : Registry) (now threshold : Int) :
    (cleanup_inactive_users reg now threshold).removed_any
      = reg.any (fun p => threshold < now - p.2.last_seen) := by
  simp only [cleanup_inactive_users]
  split
  · next hc =>
    rw [List.length_map] at hc
    exact ((length_filter_pos_iff_any _ _).mp hc).symm
  · next hc =>
    rw [List.length_map] at hc
    symm
    rw [← Bool.not_eq_true]
    intro hany
    exact hc ((length_filter_pos_iff_any _ _).mpr hany)

theorem cleanup_broadcasts_len (reg : Registry) (now threshold : Int) :
    (cleanup_inactive_users reg now threshold).broadcasts.length
      = if (cleanup_inactive_users reg now threshold).removed_any then 1
        else 0 := by
  simp only [cleanup_inactive_users]
  split <;> rfl

theorem tick_broadcast_len (reg : Registry) (now threshold : Int) :
    (cleanup_loop_tick reg now threshold).2.length
      = (cleanup_inactive_users reg now threshold).broadcasts.length + 1 := by
  simp [cleanup_loop_tick]

theorem cleanup_broadcasts_sub (reg : Registry) (now threshold : Int)
    (p : Payload)
    (hp : p ∈ (cleanup_inactive_users reg now threshold).broadcasts) :
    p = active_users_update_payload
      (cleanup_inactive_users reg now threshold).registry := by
  by_cases hc : 0 < ((reg.filter
      (fun q => threshold < now - q.2.last_seen)).map Prod.fst).length
  · simp only [cleanup_inactive_users, if_pos hc] at hp ⊢
    rw [List.mem_singleton] at hp
    exact hp
  · simp only [cleanup_inactive_users, if_neg hc] at hp
    cases hp

/-! ## Claim theorems -/

/-- C2: for every registry state, every `now` and every threshold `T`,
the eviction sweep of `cleanup_inactive_users` retains exactly the
records with `now - last_seen ≤ T` (equivalently, removes exactly those
with `now - last_seen > T` and no others); in particular a record with
`now - last_seen = T` is retained, the boundary being exclusive. -/
theorem eviction_boundary_exactness (reg : Registry) (now threshold : Int)
    (h : keysUnique reg) (p : String × UserRecord) :
    p ∈ (cleanup_inactive_users reg now threshold).registry ↔
      p ∈ reg ∧ now - p.2.last_seen ≤ threshold := by
  rw [cleanup_registry_eq, List.mem_filter]
  constructor
  · rintro ⟨hp, hc⟩
    refine ⟨hp, ?_⟩
    by_contra hgt
    push_neg at hgt
    have hmem : p.1 ∈ (reg.filter
        (fun q => threshold < now - q.2.last_seen)).map Prod.fst :=
      List.mem_map_of_mem Prod.fst
        (List.mem_filter.mpr ⟨hp, by simpa using hgt⟩)
    simp [hmem] at hc
  · rintro ⟨hp, hle⟩
    refine ⟨hp, ?_⟩
    have hnot : p.1 ∉ (reg.filter
        (fun q => threshold < now - q.2.last_seen)).map Prod.fst := by
      intro hmem
      rcases List.mem_map.mp hmem with ⟨q, hq, hqk⟩
      rcases List.mem_filter.mp hq with ⟨hqreg, hqstale⟩
      have hqp : q = p := eq_of_mem_of_keysUnique h hqreg hp hqk
      subst hqp
      simp only [decide_eq_true_eq] at hqstale
      omega
    simp [hnot]

/-- Witness for C2: with threshold 300, a record last seen exactly 300
seconds ago (the boundary) is retained by the sweep while a record 301
seconds stale sits beside it. -/
theorem eviction_boundary_exactness_witness :
    ("u1", (⟨none, 0, [], "u1", false⟩ : UserRecord)) ∈
      (cleanup_inactive_users
        [("u1", ⟨none, 0, [], "u1", false⟩),
         ("u2", ⟨none, -1, [], "u2", false⟩)] 300 300).registry :=
  (eviction_boundary_exactness
      [("u1", ⟨none, 0, [], "u1", false⟩),
       ("u2", ⟨none, -1, [], "u2", false⟩)] 300 300
      (by unfold keysUnique; decide) ("u1", ⟨none, 0, [], "u1", false⟩)).mpr
    ⟨by decide, by decide⟩

/-- C7: in every rollup cycle, the snapshot of active ids contains
exactly the user-ids of records with `now - last_seen ≤ threshold`
(boundary inclusive, re-checked against the timestamps rather than
trusting registry membership); and when the snapshot is empty the cycle
returns 0 with the bucket table untouched and no connection attempt. -/
theorem rollup_snapshot_exact (reg : Registry) (now0 now threshold : Int)
    (db : Option BucketTable) (uid : String) :
    (uid ∈ snapshot_active reg now threshold ↔
      ∃ p, p ∈ reg ∧ p.1 = uid ∧ now - p.2.last_seen ≤ threshold) ∧
    (snapshot_active reg now threshold = [] →
      record_minute_presence reg now0 now threshold db = ⟨0, db, 0⟩) := by
  constructor
  · unfold snapshot_active
    constructor
    · intro hm
      rcases List.mem_map.mp hm with ⟨p, hp, hk⟩
      rcases List.mem_filter.mp hp with ⟨hpr, hcond⟩
      exact ⟨p, hpr, hk, by simpa using hcond⟩
    · rintro ⟨p, hpr, hk, hcond⟩
      exact hk ▸ List.mem_map_of_mem Prod.fst
        (List.mem_filter.mpr ⟨hpr, by simpa using hcond⟩)
  · intro h
    unfold record_minute_presence
    rw [h]
    rfl

/-- Witness for C7: a registry holding one record 400 seconds stale at
threshold 300 yields an empty snapshot, and the cycle returns 0 leaving
the bucket table exactly as it was, with zero connection attempts. -/
theorem rollup_snapshot_exact_witness :
    record_minute_presence [("u1", ⟨none, 0, [], "u1", false⟩)] 400 400 300
      (some [(60, "old")]) = ⟨0, some [(60, "old")], 0⟩ :=
  (rollup_snapshot_exact [("u1", ⟨none, 0, [], "u1", false⟩)] 400 400 300
      (some [(60, "old")]) "u1").2 (by decide)

/-- C8: GET /health never touches the persistence gateway: its result is
independent of gateway availability, performs zero connection attempts,
and always reports status healthy together with the current non-admin
count. -/
theorem health_check_no_persistence (reg : Registry) (a b : Bool) :
    health_check reg a = health_check reg b ∧
    (health_check reg a).db_connects = 0 ∧
    (health_check reg a).response.status = "healthy" ∧
    (health_check reg a).response.active_users = numNonAdmin reg :=
  ⟨rfl, rfl, rfl, non_admin_count_eq reg⟩

/-- C9: with retentionDays ≤ 0 the retention pruner deletes nothing —
it returns 0 with the table untouched, zero connection attempts and
zero DELETE statements. -/
theorem retention_nonpositive_noop (retentionDays : Int)
    (db : Option BucketTable) (now : Int) (h : retentionDays ≤ 0) :
    cleanup_old_presence_data retentionDays db now = ⟨0, db, 0, 0⟩ := by
  unfold cleanup_old_presence_data
  rw [if_pos h]

/-- Witness for C9: retentionDays = 0 over a non-empty reachable table
deletes nothing and never connects. -/
theorem retention_nonpositive_noop_witness :
    cleanup_old_presence_data 0 (some [(-100000000, "u1"), (60, "u2")]) 0
      = ⟨0, some [(-100000000, "u1"), (60, "u2")], 0, 0⟩ :=
  retention_nonpositive_noop 0 (some [(-100000000, "u1"), (60, "u2")]) 0
    (by decide)

/-- C3 counterexample: on an empty registry a reaper tick evicts
nothing (`removed_any = false`) yet still publishes an
`active_users_update` broadcast — `cleanup_loop` at src/app.py lines
399-404 emits unconditionally after every sweep, so a tick that evicts
nothing does publish, contrary to the claim. -/
theorem reaper_tick_broadcasts_without_eviction :
    (cleanup_inactive_users ([] : Registry) 0 300).removed_any = false ∧
    (cleanup_loop_tick ([] : Registry) 0 300).2 ≠ [] := by decide

/-- C3 (amended): the sweep `cleanup_inactive_users` itself publishes a
broadcast iff at least one record was evicted (one broadcast when a
stale record existed, none otherwise); but each tick of `cleanup_loop`
then publishes one additional unconditional broadcast, so every reaper
tick publishes at least one `active_users_update`, even when nothing
was evicted. -/
theorem reaper_broadcast_accounting (reg : Registry) (now threshold : Int) :
    ((cleanup_inactive_users reg now threshold).removed_any
       = reg.any (fun p => threshold < now - p.2.last_seen)) ∧
    ((cleanup_inactive_users reg now threshold).broadcasts.length
       = if (cleanup_inactive_users reg now threshold).removed_any then 1
         else 0) ∧
    ((cleanup_loop_tick reg now threshold).2.length
       = (cleanup_inactive_users reg now threshold).broadcasts.length + 1) :=
  ⟨cleanup_removed_any_eq reg now threshold,
   cleanup_broadcasts_len reg now threshold,
   tick_broadcast_len reg now threshold⟩

/-- C4 counterexample: POST /api/user-presence for a fresh user mutates
the registry (an upsert) yet emits no `active_users_update` broadcast —
the handler at src/app.py lines 258-315 contains no emit call, contrary
to the claim that every upsert on either path broadcasts. -/
theorem http_upsert_emits_no_broadcast :
    (update_user_presence [] (some "u1") [] true (.ok 0) 0).broadcasts
      = [] ∧
    (update_user_presence [] (some "u1") [] true (.ok 0) 0).registry
      ≠ [] := by decide

/-- C4 (amended): only the socket login path broadcasts on upsert: with
a truthy user_id it emits exactly one `active_users_update` carrying the
updated non-admin snapshot of the post-upsert registry; the HTTP
POST /api/user-presence path never emits a broadcast on any input. -/
theorem upsert_broadcast_paths (reg : Registry) (uid : Option String)
    (info infoH : List (String × String)) (sid : String)
    (sessionDb : Bool) (env envH : AdminLookupEnv) (now nowH : Int) :
    ((handle_user_login reg uid info sid env now).broadcasts
       = if truthy uid then
           [active_users_update_payload
             (handle_user_login reg uid info sid env now).registry]
         else []) ∧
    (update_user_presence reg uid infoH sessionDb envH nowH).broadcasts
      = [] :=
  ⟨login_broadcasts_eq reg uid info sid env now,
   updatePresence_broadcasts_nil reg uid infoH sessionDb envH nowH⟩

/-- C5 counterexample: the socket login event with user_id missing is
silently dropped: the registry is untouched and nothing at all is
emitted or returned — the handler has no response channel — so no
structured failure result reaches the caller, contrary to the claim
that every event missing user_id yields one. -/
theorem login_missing_user_id_silent :
    handle_user_login [("u0", ⟨some "s0", 0, [], "u0", false⟩)] none []
        "s1" .unreachable 5
      = ⟨[("u0", ⟨some "s0", 0, [], "u0", false⟩)], [], []⟩ := by decide

/-- C5 (amended): POST /api/user-presence with a missing (or falsy)
user_id returns the structured failure
`{success: false, error: 'Invalid user_id'}` with the registry
untouched and no persistence queries or broadcasts; the socket login
event with a missing user_id is silently ignored — registry untouched
and no exception, but no failure result is returned to the caller
either. -/
theorem malformed_user_id_handling (reg : Registry) (uid : Option String)
    (info infoH : List (String × String)) (sid : String)
    (sessionDb : Bool) (env envH : AdminLookupEnv) (now nowH : Int)
    (h : truthy uid = false) :
    update_user_presence reg uid infoH sessionDb envH nowH
      = ⟨reg, .invalid_user_id, [], [], []⟩ ∧
    handle_user_login reg uid info sid env now = ⟨reg, [], []⟩ := by
  cases uid with
  | none => exact ⟨rfl, rfl⟩
  | some s =>
    have hs : s = "" := by simpa [truthy] using h
    subst hs
    exact ⟨by simp [update_user_presence], by simp [handle_user_login]⟩

/-- Witness for C5 (amended): a presence POST without user_id against a
one-user registry answers the structured failure and leaves the registry
as it was. -/
theorem malformed_user_id_handling_witness :
    update_user_presence [("u0", ⟨none, 0, [], "u0", false⟩)] none [] true
        (.ok 3) 9
      = ⟨[("u0", ⟨none, 0, [], "u0", false⟩)], .invalid_user_id,
         [], [], []⟩ :=
  (malformed_user_id_handling [("u0", ⟨none, 0, [], "u0", false⟩)] none
    [] [] "s1" true (.ok 3) (.ok 3) 9 9 rfl).1

/-- C1 counterexample: user u1 first logs in while the gateway reports
an admin row, so the record is stored with is_admin = true; a second
login for the same user-id while the gateway is unreachable re-runs
`check_if_admin` (the admin-query trace of the second call is `[u1]`)
and overwrites the record's is_admin flag to false — the second
registration both re-queries and re-derives is_admin, contrary to the
claim. -/
theorem login_rederives_admin_counterexample :
    ((lookup (handle_user_login [] (some "u1") [] "s1" (.ok 1) 0).registry
        "u1").map UserRecord.is_admin = some true) ∧
    ((handle_user_login
        (handle_user_login [] (some "u1") [] "s1" (.ok 1) 0).registry
        (some "u1") [] "s2" .unreachable 5).admin_queries = ["u1"]) ∧
    ((lookup (handle_user_login
        (handle_user_login [] (some "u1") [] "s1" (.ok 1) 0).registry
        (some "u1") [] "s2" .unreachable 5).registry "u1").map
      UserRecord.is_admin = some false) := by decide

/-- C1 (amended): a second registration for a user-id already in the
registry never creates a second entry (the registry length is
unchanged on both paths); on the HTTP POST /api/user-presence path the
existing record is kept and only last_seen is refreshed — is_admin,
socket_id and user_info untouched — although `check_if_admin` is still
invoked (its result discarded); on the socket login path
`check_if_admin` is invoked again and the record is overwritten with an
is_admin flag re-derived from that fresh lookup. -/
theorem second_registration_behavior (reg : Registry) (uid : String)
    (r : UserRecord) (info infoH : List (String × String)) (sid : String)
    (sessionDb : Bool) (env envH : AdminLookupEnv) (now nowH : Int)
    (hn : lookup reg uid = some r) (hne : ¬(uid = "")) :
    ((handle_user_login reg (some uid) info sid env now).registry.length
       = reg.length) ∧
    (lookup (handle_user_login reg (some uid) info sid env now).registry
       uid = some ⟨some sid, now, info, uid, check_if_admin env⟩) ∧
    ((handle_user_login reg (some uid) info sid env now).admin_queries
       = [uid]) ∧
    ((update_user_presence reg (some uid) infoH sessionDb envH
        nowH).registry.length = reg.length) ∧
    (lookup (update_user_presence reg (some uid) infoH sessionDb envH
        nowH).registry uid = some { r with last_seen := nowH }) ∧
    ((update_user_presence reg (some uid) infoH sessionDb envH
        nowH).admin_queries = [uid]) := by
  have hc := containsKey_of_lookup hn
  have hlogin := login_truthy_eq reg uid info sid env now hne
  have hhttp : update_user_presence reg (some uid) infoH sessionDb envH nowH
      = ⟨updateEntry reg uid (fun q => { q with last_seen := nowH }),
         .ok uid, [], (if sessionDb then [uid] else []), [uid]⟩ := by
    simp [update_user_presence, hne, hc]
  refine ⟨?_, ?_, ?_, ?_, ?_, ?_⟩
  · rw [hlogin]
    exact length_setEntry_of_contains reg uid _ hc
  · rw [hlogin]
    exact lookup_setEntry_self reg uid _
  · rw [hlogin]
  · rw [hhttp]
    exact length_updateEntry reg uid (fun q => { q with last_seen := nowH })
  · rw [hhttp, lookup_updateEntry, hn]
    rfl
  · rw [hhttp]

/-- Witness for C1 (amended): refreshing the presence of an
already-registered admin through the HTTP path keeps its record intact
(same socket, user_info and is_admin = true) with only last_seen moved
to the new timestamp. -/
theorem second_registration_behavior_witness :
    lookup (update_user_presence [("u1", ⟨some "sA", 0, [], "u1", true⟩)]
        (some "u1") [] false .unreachable 7).registry "u1"
      = some ⟨some "sA", 7, [], "u1", true⟩ :=
  ((second_registration_behavior [("u1", ⟨some "sA", 0, [], "u1", true⟩)]
      "u1" ⟨some "sA", 0, [], "u1", true⟩ [] [] "sB" false (.ok 1)
      .unreachable 3 7 (by decide) (by decide)).2.2.2.2).1

/-- C6: at every observation point, every externally visible non-admin
view reports count equal to the number of registry records with
is_admin = false, and its users list is exactly the serialized
non-admin records — admin records never appear.  This holds for
GET /api/active-users, GET /health, the `active_users_update` payload
built from any registry state, and for every broadcast emitted by any
event step, each such broadcast being the payload of the step's
resulting registry state (the state at its observation point). -/
theorem non_admin_view_correct (reg : Registry) (e : Event) (p : Payload) :
    ((get_active_users reg).count = numNonAdmin reg) ∧
    ((get_active_users reg).users = specNonAdminList reg) ∧
    ((health_check reg true).response.active_users = numNonAdmin reg) ∧
    ((active_users_update_payload reg).count = numNonAdmin reg) ∧
    ((active_users_update_payload reg).users = specNonAdminList reg) ∧
    (∀ u ∈ (active_users_update_payload reg).users, u.is_admin = false) ∧
    (p ∈ (step reg e).2 → p = active_users_update_payload (step reg e).1) := by
  refine ⟨non_admin_users_length reg, non_admin_users_serialized reg,
    non_admin_count_eq reg, non_admin_count_eq reg,
    non_admin_users_serialized reg, ?_, ?_⟩
  · intro u hu
    simp only [active_users_update_payload] at hu
    rcases List.mem_map.mp hu with ⟨v, hv, rfl⟩
    rcases List.mem_filter.mp hv with ⟨_, hva⟩
    simpa [serialize_user] using hva
  · intro hp
    cases e with
    | login uid info sid env now =>
      cases uid with
      | none => cases hp
      | some s =>
        by_cases hs : s = ""
        · simp only [step, handle_user_login, if_pos hs] at hp
          cases hp
        · simp only [step, handle_user_login, if_neg hs] at hp ⊢
          rw [List.mem_singleton] at hp
          exact hp
    | activity uid now => cases hp
    | disconnect sid =>
      cases hf : reg.find? (fun q => q.2.socket_id = some sid) with
      | none =>
        simp only [step, handle_disconnect, hf] at hp
        cases hp
      | some hit =>
        simp only [step, handle_disconnect, hf] at hp ⊢
        rw [List.mem_singleton] at hp
        exact hp
    | httpPresence uid info sessionDb env now =>
      rw [show (step reg (.httpPresence uid info sessionDb env now)).2
            = (update_user_presence reg uid info sessionDb env now).broadcasts
          from rfl, updatePresence_broadcasts_nil] at hp
      cases hp
    | reaperTick now threshold =>
      simp only [step, cleanup_loop_tick] at hp ⊢
      rcases List.mem_append.mp hp with h1 | h2
      · exact cleanup_broadcasts_sub reg now threshold p h1
      · rw [List.mem_singleton] at h2
        exact h2

/-- Witness for C6: the broadcast emitted by a non-admin login into an
empty registry is precisely the non-admin payload of the resulting
one-record registry state. -/
theorem non_admin_view_correct_witness :
    active_users_update_payload [("u1", ⟨some "s1", 0, [], "u1", false⟩)]
      = active_users_update_payload
          (step [] (.login (some "u1") [] "s1" (.ok 0) 0)).1 :=
  (non_admin_view_correct [] (.login (some "u1") [] "s1" (.ok 0) 0)
      (active_users_update_payload
        [("u1", ⟨some "s1", 0, [], "u1", false⟩)])).2.2.2.2.2.2
    (by decide)

/-- C10 counterexample: u1 is in fact an admin but the gateway is
unreachable at first login, so the record is created with
is_admin = false and u1 is counted publicly; after a second login with
the gateway recovered, the same registry entry (the key never leaves
the registry) carries is_admin = true and u1 vanishes from the public
count — so the flag does not stay false, nor the user publicly listed,
for the entire lifetime of the record. -/
theorem admin_flag_not_lifetime_stable :
    ((lookup (handle_user_login [] (some "u1") [] "s1" .unreachable
        0).registry "u1").map UserRecord.is_admin = some false) ∧
    (numNonAdmin (handle_user_login [] (some "u1") [] "s1" .unreachable
        0).registry = 1) ∧
    (containsKey (handle_user_login
        (handle_user_login [] (some "u1") [] "s1" .unreachable 0).registry
        (some "u1") [] "s2" (.ok 1) 10).registry "u1" = true) ∧
    ((lookup (handle_user_login
        (handle_user_login [] (some "u1") [] "s1" .unreachable 0).registry
        (some "u1") [] "s2" (.ok 1) 10).registry "u1").map
      UserRecord.is_admin = some true) ∧
    (numNonAdmin (handle_user_login
        (handle_user_login [] (some "u1") [] "s1" .unreachable 0).registry
        (some "u1") [] "s2" (.ok 1) 10).registry = 0) := by decide

/-- C10 (amended): when the gateway is unreachable or the admin query
fails, `check_if_admin` returns false and the login creates the record
with is_admin = false; any record whose flag is false appears in the
public broadcast payload and in GET /api/active-users; activity
heartbeats never change any record's flag; but a later socket login
re-derives the flag from a fresh `check_if_admin`, so the flag stays
false only until the user next logs in with the gateway recovered. -/
theorem failed_admin_lookup_defaults_false (env env2 : AdminLookupEnv)
    (reg reg2 : Registry) (uid k : String) (r : UserRecord)
    (info info2 infoH : List (String × String)) (sid sid2 : String)
    (now now2 nowA nowH : Int) (uidA uidH : Option String)
    (sessionDb : Bool) (envH : AdminLookupEnv)
    (henv : env = .unreachable ∨ env = .queryError) (hne : ¬(uid = ""))
    (hk : lookup reg2 k = some r) (hflag : r.is_admin = false) :
    (check_if_admin env = false) ∧
    (lookup (handle_user_login reg (some uid) info sid env now).registry
       uid = some ⟨some sid, now, info, uid, false⟩) ∧
    (serialize_user r ∈ (active_users_update_payload reg2).users ∧
     serialize_user r ∈ (get_active_users reg2).users) ∧
    ((lookup (handle_user_activity reg2 uidA nowA) k).map
        UserRecord.is_admin = (lookup reg2 k).map UserRecord.is_admin) ∧
    ((lookup (update_user_presence reg2 uidH infoH sessionDb envH
        nowH).registry k).map UserRecord.is_admin
       = (lookup reg2 k).map UserRecord.is_admin) ∧
    (lookup (handle_user_login reg2 (some uid) info2 sid2 env2
        now2).registry uid
       = some ⟨some sid2, now2, info2, uid, check_if_admin env2⟩) := by
  have hfalse : check_if_admin env = false := by
    rcases henv with h | h <;> rw [h] <;> rfl
  refine ⟨hfalse, ?_, ⟨?_, ?_⟩, ?_, ?_, ?_⟩
  · rw [login_truthy_eq reg uid info sid env now hne, hfalse]
    exact lookup_setEntry_self reg uid _
  · exact serialize_mem_non_admin hk hflag
  · exact serialize_mem_non_admin hk hflag
  · cases uidA with
    | none => rfl
    | some s =>
      simp only [handle_user_activity]
      split
      · exact lookup_updateEntry_is_admin reg2 k s nowA
      · rfl
  · cases uidH with
    | none => rfl
    | some s =>
      by_cases hs : s = ""
      · rw [show (update_user_presence reg2 (some s) infoH sessionDb envH
                nowH).registry = reg2 from by
            simp [update_user_presence, hs]]
      · by_cases hcs : containsKey reg2 s
        · rw [show (update_user_presence reg2 (some s) infoH sessionDb envH
                  nowH).registry
                = updateEntry reg2 s (fun q => { q with last_seen := nowH })
              from by simp [update_user_presence, hs, hcs]]
          exact lookup_updateEntry_is_admin reg2 k s nowH
        · rw [show (update_user_presence reg2 (some s) infoH sessionDb envH
                  nowH).registry
                = reg2 ++ [(s, ⟨none, nowH, infoH, s, check_if_admin envH⟩)]
              from by simp [update_user_presence, hs, hcs]]
          rw [lookup_append_of_some hk, hk]
  · rw [login_truthy_eq reg2 uid info2 sid2 env2 now2 hne]
    exact lookup_setEntry_self reg2 uid _

/-- Witness for C10 (amended): a login while the gateway is unreachable
creates the record with is_admin = false. -/
theorem failed_admin_lookup_defaults_false_witness :
    lookup (handle_user_login [] (some "u9") [] "s9" .unreachable
        3).registry "u9"
      = some ⟨some "s9", 3, [], "u9", false⟩ :=
  (failed_admin_lookup_defaults_false .unreachable (.ok 1) []
      [("u2", ⟨none, 0, [], "u2", false⟩)] "u9" "u2"
      ⟨none, 0, [], "u2", false⟩ [] [] [] "s9" "sX" 3 4 5 6 none
      (some "u2") true (.ok 1) (Or.inl rfl) (by decide) (by decide)
      rfl).2.1

end ActiveUserServer
